import Mathlib

/-!
# Verification of `azure_sql_exporter` (iamseth/azure_sql_exporter)

A shallow embedding of `azure_sql_exporter.go` and proofs of the frozen
specification claims.  The program is a Prometheus exporter: on each scrape
request it launches one scraping task per configured database, each task
writes its outcome into a shared registry of gauges under a mutex, and the
collector emits the registry's current series.

Modelling conventions:
* gauge values (`float64` in Go) are an opaque type parameter `V` carrying
  `Zero` and `One` instances — the program never computes with the values,
  it only moves them from the scanned row into gauges and writes the
  constants `0` and `1`;
* a `GaugeVec` (labelled by `server`, `database`) is a partial map from the
  label pair to the current value; a label pair holds at most one series,
  exactly as a Prometheus `GaugeVec` keyed by its label values;
* the external world (database connections, query rows, the file system,
  the YAML parser) is passed in as explicit data: a `ScrapeResult` is the
  outcome the driver delivers for one target, `readFile`/`unmarshal` are
  the effectful collaborators of `NewConfig`;
* the mutex of `Exporter` is modelled by atomicity: every critical section
  of the source (the write block of `scrapeDatabase`, the read block of
  `Collect`) becomes one atomic `Registry → Registry` step, and an
  interleaved execution is a list of such steps.
-/

/-- The label pair `(server, database)` every labelled gauge family uses
(`newGuageVec`, azure_sql_exporter.go line 164). -/
abbrev Labels := String × String

/-- One Prometheus `GaugeVec`: at most one series per label pair, `none`
when no value has ever been set for that pair. -/
def LabelMap (V : Type) := Labels → Option V

/-- `GaugeVec.WithLabelValues(...).Set(v)`: overwrite the series at one
label pair, leave every other series unchanged. -/
def gvSet {V : Type} (m : LabelMap V) (l : Labels) (v : V) : LabelMap V :=
  fun x => if x = l then some v else m x

/-- `Database` (azure_sql_exporter.go lines 120-126): one target's
connection parameters. -/
structure Database where
  Name : String
  Server : String
  User : String
  Password : String
  Port : Nat
deriving DecidableEq, Repr

/-- `Database.DSN` (line 129-131):
`fmt.Sprintf("server=%s;user id=%s;password=%s;port=%d;database=%s", d.Server, d.User, d.Password, d.Port, d.Name)`. -/
def Database.DSN (d : Database) : String :=
  "server=" ++ d.Server ++ ";user id=" ++ d.User ++ ";password=" ++ d.Password
    ++ ";port=" ++ Nat.repr d.Port ++ ";database=" ++ d.Name

/-- `Database.String` (lines 134-136): the redacted form used for logging,
`fmt.Sprintf("server=%s;user id=%s;password=******;port=%d;database=%s", d.Server, d.User, d.Port, d.Name)`. -/
def Database.string (d : Database) : String :=
  "server=" ++ d.Server ++ ";user id=" ++ d.User ++ ";password=******"
    ++ ";port=" ++ Nat.repr d.Port ++ ";database=" ++ d.Name

/-- The label values a scrape of `d` writes under:
`WithLabelValues(d.Server, d.Name)` (lines 94, 105, 110-116). -/
def Database.labels (d : Database) : Labels := (d.Server, d.Name)

/-- The outcome the database driver delivers for one scrape of one target:
`sql.Open` fails, or `QueryRow(...).Scan` fails, or the row scans into the
six floats `cpu, data, logio, memory, session, worker` (line 99-100, in the
scan order of the fixed query's columns: `avg_cpu_percent,
avg_data_io_percent, avg_log_write_percent, avg_memory_usage_percent,
max_session_percent, max_worker_percent`). -/
inductive ScrapeResult (V : Type) where
  | connectFailure (errMsg : String)
  | queryFailure (errMsg : String)
  | success (cpu data logio memory session worker : V)
deriving DecidableEq, Repr

/-- The gauge state of one `Exporter` (lines 30-41): the seven labelled
families plus the unlabelled liveness gauge `up`.  `up = none` models a
gauge that has never been `Set`. -/
structure Registry (V : Type) where
  cpuPercent : LabelMap V
  dataIO : LabelMap V
  logIO : LabelMap V
  memoryPercent : LabelMap V
  workPercent : LabelMap V
  sessionPercent : LabelMap V
  dbUp : LabelMap V
  up : Option V

/-- `NewExporter` (lines 44-56): every gauge family starts empty and `up`
has no value yet. -/
def Registry.initial (V : Type) : Registry V :=
  { cpuPercent := fun _ => none
    dataIO := fun _ => none
    logIO := fun _ => none
    memoryPercent := fun _ => none
    workPercent := fun _ => none
    sessionPercent := fun _ => none
    dbUp := fun _ => none
    up := none }

variable {V : Type}

/-- The registry effect of `scrapeDatabase(d)` (lines 88-117), one atomic
step (the source holds `e.mutex` across each of the three write blocks):
on either failure only `dbUp` at `d`'s labels is set, to `0`; on success
the six statistic gauges receive the scanned values
(`cpuPercent ← cpu`, `dataIO ← data`, `logIO ← logio`,
`memoryPercent ← memory`, `workPercent ← worker`,
`sessionPercent ← session`, lines 110-115) and `dbUp` is set to `1`. -/
def scrapeWrite [Zero V] [One V] (d : Database) (o : ScrapeResult V)
    (r : Registry V) : Registry V :=
  match o with
  | .connectFailure _ => { r with dbUp := gvSet r.dbUp d.labels 0 }
  | .queryFailure _ => { r with dbUp := gvSet r.dbUp d.labels 0 }
  | .success cpu data logio memory session worker =>
      { r with
        cpuPercent := gvSet r.cpuPercent d.labels cpu
        dataIO := gvSet r.dataIO d.labels data
        logIO := gvSet r.logIO d.labels logio
        memoryPercent := gvSet r.memoryPercent d.labels memory
        workPercent := gvSet r.workPercent d.labels worker
        sessionPercent := gvSet r.sessionPercent d.labels session
        dbUp := gvSet r.dbUp d.labels 1 }

/-- Run a sequence of completed scrape critical sections in order. -/
def runScrapes [Zero V] [One V] (jobs : List (Database × ScrapeResult V))
    (r : Registry V) : Registry V :=
  jobs.foldl (fun acc j => scrapeWrite j.1 j.2 acc) r

/-- The metric families of the exporter, in the shape `Describe`
advertises them (lines 59-68). -/
inductive Family where
  | cpuPercent | dataIO | logIO | memoryPercent | workPercent
  | sessionPercent | dbUp | up
deriving DecidableEq, Repr

/-- The full metric name of each family: the common namespace
`azure_sql` (line 27) joined to the name passed to `newGuage` /
`newGuageVec` (lines 47-54). -/
def Family.metricName : Family → String
  | .cpuPercent => "azure_sql_cpu_percent"
  | Family.dataIO => "azure_sql_data_io"
  | Family.logIO => "azure_sql_log_io"
  | .memoryPercent => "azure_sql_memory_percent"
  | .workPercent => "azure_sql_worker_percent"
  | .sessionPercent => "azure_sql_session_percent"
  | .dbUp => "azure_sql_db_up"
  | .up => "azure_sql_up"

/-- `Describe` (lines 59-68) advertises all eight families, `up` last. -/
def describeList : List Family :=
  [Family.cpuPercent, Family.dataIO, Family.logIO, Family.memoryPercent,
   Family.workPercent, Family.sessionPercent, Family.dbUp, Family.up]

/-- What `Collect` sends into the metric channel (lines 78-84): the current
series of the seven labelled families, in source order.  `e.up` is *not*
collected anywhere in `Collect`, so no `up` family appears here. -/
def collectEmissions (r : Registry V) : List (Family × LabelMap V) :=
  [(Family.cpuPercent, r.cpuPercent), (Family.dataIO, r.dataIO),
   (Family.logIO, r.logIO), (Family.memoryPercent, r.memoryPercent),
   (Family.workPercent, r.workPercent),
   (Family.sessionPercent, r.sessionPercent), (Family.dbUp, r.dbUp)]

/-- The read/emit critical section of `Collect` (lines 76-85): under the
mutex, emit the seven labelled families, then `e.up.Set(1)`.  Returns the
emitted snapshot and the registry after the section. -/
def collectSection [One V] (r : Registry V) :
    List (Family × LabelMap V) × Registry V :=
  (collectEmissions r, { r with up := some 1 })

/-- One whole `Collect` cycle (lines 71-86) in which every launched scrape
completed before the emission section acquired the mutex: the goroutines of
line 74 run to completion (each `jobs` entry pairs a target of `e.dbs` with
the outcome its driver delivered), then the read section runs. -/
def collect [Zero V] [One V] (jobs : List (Database × ScrapeResult V))
    (r : Registry V) : List (Family × LabelMap V) × Registry V :=
  collectSection (runScrapes jobs r)

/-- The log line of the connect-failure branch (line 93):
`log.Errorf("Failed to access database %s: %s", d, err)` — Go's `%s` on a
`Database` calls its `String` method, the redacted form. -/
def connectErrLine (d : Database) (errMsg : String) : String :=
  "Failed to access database " ++ d.string ++ ": " ++ errMsg

/-- The log line of the query-failure branch (line 104):
`log.Errorf("Failed to query database %s: %s", d, err)`. -/
def queryErrLine (d : Database) (errMsg : String) : String :=
  "Failed to query database " ++ d.string ++ ": " ++ errMsg

/-- `Config` (lines 139-141): the YAML shape, a list of databases. -/
structure Config where
  Databases : List Database
deriving DecidableEq, Repr

/-- `NewConfig` (lines 144-155), with the two effectful collaborators
passed in explicitly: `readFile` is `ioutil.ReadFile` (file contents by
path, `Except` error on an unreadable file) and `unmarshal` is
`yaml.Unmarshal` into the `Config` shape.  An error at either stage is
wrapped and returned; otherwise the parsed config is returned. -/
def NewConfig (readFile : String → Except String String)
    (unmarshal : String → Except String Config)
    (path : String) : Except String Config :=
  match readFile path with
  | .error e => .error ("unable to read file " ++ path ++ ": " ++ e)
  | .ok fh =>
      match unmarshal fh with
      | .error e => .error ("unable to unmarshal file " ++ path ++ ": " ++ e)
      | .ok config => .ok config

/-- The observable fate of `main` (lines 178-199): either `log.Fatalf`
exits before any server is started, or the process registers an exporter
over the parsed database list and serves. -/
inductive MainResult where
  | fatalExit (msg : String)
  | serving (dbs : List Database)
deriving DecidableEq, Repr

/-- The startup control flow of `main` (lines 180-186): load the config;
on error `log.Fatalf` exits before `http.Handle`/`ListenAndServe`;
on success the exporter is built from `config.Databases` and the server
runs. -/
def mainFlow (readFile : String → Except String String)
    (unmarshal : String → Except String Config)
    (configPath : String) : MainResult :=
  match NewConfig readFile unmarshal configPath with
  | .error e => .fatalExit ("Cannot open config file " ++ configPath ++ ": " ++ e)
  | .ok config => .serving config.Databases

/-- Connection lifecycle events of one scrape cycle. -/
inductive ConnEvent where
  | openFailed | opened | closed
deriving DecidableEq, Repr

/-- The connection events `scrapeDatabase` performs, in order, for each
outcome (lines 89-117): `sql.Open` either fails (nothing to close) or
yields a connection, and `defer conn.Close()` (line 97) closes it on every
later exit path — the query-failure `return` (line 106) and the success
fall-through alike.  A cycle starts with its own `sql.Open`; no connection
is carried in from a previous cycle. -/
def scrapeConnTrace : ScrapeResult V → List ConnEvent
  | .connectFailure _ => [.openFailed]
  | .queryFailure _ => [.opened, .closed]
  | .success _ _ _ _ _ _ => [.opened, .closed]

example : (Database.mk "db" "srv" "u" "pw" 1433).DSN
    = "server=srv;user id=u;password=pw;port=1433;database=db" := by decide

example : (Database.mk "db" "srv" "u" "pw" 1433).string
    = "server=srv;user id=u;password=******;port=1433;database=db" := by decide

/-- `true` exactly on the two failure outcomes of a scrape. -/
def ScrapeResult.isFailure : ScrapeResult V → Bool
  | .connectFailure _ => true
  | .queryFailure _ => true
  | .success _ _ _ _ _ _ => false

/-- `true` exactly on the success outcome of a scrape. -/
def ScrapeResult.isSuccess : ScrapeResult V → Bool
  | .success _ _ _ _ _ _ => true
  | _ => false

/-- Everything a render shows about one label pair: the current series (or
absence) of each of the seven labelled gauge families at that pair. -/
structure TargetView (V : Type) where
  cpu : Option V
  dataIO : Option V
  logIO : Option V
  memory : Option V
  worker : Option V
  session : Option V
  dbUp : Option V
deriving DecidableEq, Repr

/-- The view of one label pair in a registry. -/
def Registry.view (r : Registry V) (l : Labels) : TargetView V :=
  { cpu := r.cpuPercent l
    dataIO := r.dataIO l
    logIO := r.logIO l
    memory := r.memoryPercent l
    worker := r.workPercent l
    session := r.sessionPercent l
    dbUp := r.dbUp l }

/-- What one completed scrape critical section leaves behind at its own
label pair, as a function of the view it found: a failure touches only
`dbUp` (to `0`), a success replaces all seven entries. -/
def writtenView [Zero V] [One V] (o : ScrapeResult V) (w : TargetView V) :
    TargetView V :=
  match o with
  | .connectFailure _ => { w with dbUp := some 0 }
  | .queryFailure _ => { w with dbUp := some 0 }
  | .success cpu data logio memory session worker =>
      { cpu := some cpu, dataIO := some data, logIO := some logio,
        memory := some memory, worker := some worker,
        session := some session, dbUp := some 1 }

/-- The view of one label pair in an emitted snapshot: for each labelled
family, the series the snapshot carries at that pair. -/
def emittedView (out : List (Family × LabelMap V)) (l : Labels) :
    TargetView V :=
  { cpu := (out.lookup .cpuPercent).bind (fun m => m l)
    dataIO := (out.lookup Family.dataIO).bind (fun m => m l)
    logIO := (out.lookup Family.logIO).bind (fun m => m l)
    memory := (out.lookup .memoryPercent).bind (fun m => m l)
    worker := (out.lookup .workPercent).bind (fun m => m l)
    session := (out.lookup .sessionPercent).bind (fun m => m l)
    dbUp := (out.lookup .dbUp).bind (fun m => m l) }

theorem gvSet_same {m : LabelMap V} {l : Labels} {v : V} :
    gvSet m l v l = some v := by
  simp [gvSet]

theorem gvSet_other {m : LabelMap V} {l l' : Labels} {v : V} (h : l' ≠ l) :
    gvSet m l v l' = m l' := by
  simp [gvSet, h]

/-- A scrape critical section leaves every other label pair's view alone. -/
theorem scrapeWrite_view_other [Zero V] [One V] (d : Database)
    (o : ScrapeResult V) (r : Registry V) {l : Labels} (h : l ≠ d.labels) :
    (scrapeWrite d o r).view l = r.view l := by
  cases o <;> simp [scrapeWrite, Registry.view, gvSet_other h]

/-- A scrape critical section rewrites its own label pair's view to
`writtenView` of its outcome. -/
theorem scrapeWrite_view_self [Zero V] [One V] (d : Database)
    (o : ScrapeResult V) (r : Registry V) :
    (scrapeWrite d o r).view d.labels = writtenView o (r.view d.labels) := by
  cases o <;> simp [scrapeWrite, Registry.view, writtenView, gvSet_same]

/-- A sequence of completed scrape sections touching only other label
pairs leaves a pair's view alone. -/
theorem runScrapes_view_not_mem [Zero V] [One V]
    (jobs : List (Database × ScrapeResult V)) (r : Registry V) {l : Labels}
    (h : l ∉ jobs.map fun j => j.1.labels) :
    (runScrapes jobs r).view l = r.view l := by
  induction jobs generalizing r with
  | nil => rfl
  | cons j rest ih =>
      simp only [List.map_cons, List.mem_cons, not_or] at h
      rw [runScrapes, List.foldl_cons]
      rw [show List.foldl (fun acc j => scrapeWrite j.1 j.2 acc)
            (scrapeWrite j.1 j.2 r) rest
          = runScrapes rest (scrapeWrite j.1 j.2 r) from rfl]
      rw [ih _ h.2, scrapeWrite_view_other _ _ _ h.1]

/-- When the completed scrape sections carry pairwise distinct label pairs,
the section of target `d` is the only one touching `d.labels`, so the final
view there is exactly `writtenView` of `d`'s outcome over the pre-cycle
view. -/
theorem runScrapes_view_mem [Zero V] [One V]
    (jobs : List (Database × ScrapeResult V)) (r : Registry V)
    (d : Database) (o : ScrapeResult V)
    (hnd : (jobs.map fun j => j.1.labels).Nodup) (hmem : (d, o) ∈ jobs) :
    (runScrapes jobs r).view d.labels = writtenView o (r.view d.labels) := by
  induction jobs generalizing r with
  | nil => cases hmem
  | cons j rest ih =>
      simp only [List.map_cons, List.nodup_cons] at hnd
      rw [runScrapes, List.foldl_cons]
      rw [show List.foldl (fun acc j => scrapeWrite j.1 j.2 acc)
            (scrapeWrite j.1 j.2 r) rest
          = runScrapes rest (scrapeWrite j.1 j.2 r) from rfl]
      rcases List.mem_cons.1 hmem with hj | hrest
      · subst hj
        rw [runScrapes_view_not_mem rest _ hnd.1, scrapeWrite_view_self]
      · have hne : d.labels ≠ j.1.labels := by
          intro he
          exact hnd.1 (he ▸ List.mem_map_of_mem (fun j => j.1.labels) hrest)
        rw [ih _ hnd.2 hrest, scrapeWrite_view_other _ _ _ hne]

/-- **C9.** For every `Database` value `d`, the redacted form `d.String()`
equals the `DSN()` of the same value with its `Password` field replaced by
the literal `"******"`: server, user id, port and database components are
preserved exactly and only the password component differs. -/
theorem string_eq_dsn_redacted (d : Database) :
    d.string = Database.DSN { d with Password := "******" } := by
  cases d
  simp only [Database.string, Database.DSN, String.append_assoc]
  rfl

/-- **C4.** The password never reaches any output of the scraper: the
redacted string form, both error log lines, and the registry effect of a
whole scrape are all invariant under replacing the `Password` field, so two
`Database` values differing only in `Password` are indistinguishable in
every rendered or logged string and in every gauge value. -/
theorem password_noninterference (d : Database) (p errMsg : String) :
    ({ d with Password := p } : Database).string = d.string ∧
    connectErrLine { d with Password := p } errMsg = connectErrLine d errMsg ∧
    queryErrLine { d with Password := p } errMsg = queryErrLine d errMsg ∧
    ∀ (V : Type) (_z : Zero V) (_o : One V) (oc : ScrapeResult V)
      (r : Registry V),
      scrapeWrite { d with Password := p } oc r = scrapeWrite d oc r := by
  exact ⟨rfl, rfl, rfl, fun V _z _o oc r => rfl⟩

/-- A concrete target used to instantiate theorems with hypotheses. -/
def dSales : Database :=
  { Name := "Sales", Server := "a", User := "exporter",
    Password := "hunter2", Port := 1433 }

/-- A second concrete target with distinct labels. -/
def dInventory : Database :=
  { Name := "Inventory", Server := "b", User := "exporter",
    Password := "hunter2", Port := 1433 }

/-- **C1.** (against the code) After any completed `Collect` cycle the
liveness gauge `up` holds the value `1` (set unconditionally, line 85) and
`up` is among the families `Describe` advertises (line 67) — but `Collect`
never sends `e.up` into the metric channel (lines 78-84 collect only the
seven labelled families), so the exposition output carries no `up`
series. -/
theorem up_set_to_one_but_never_emitted [Zero V] [One V]
    (jobs : List (Database × ScrapeResult V)) (r : Registry V) :
    (collect jobs r).2.up = some 1 ∧
    Family.up ∈ describeList ∧
    Family.up ∉ (collect jobs r).1.map Prod.fst := by
  refine ⟨rfl, by decide, ?_⟩
  simp [collect, collectSection, collectEmissions]

/-- **C2.** On either failure outcome, `scrapeDatabase` leaves all six
statistic gauge families untouched as whole maps (no label of any target
changes), leaves `up` untouched, and its only write is `db_up` at the
failing target's `(server, database)` labels, set to `0`; every other
`db_up` series is preserved.  The failure is absorbed: `scrapeWrite` is a
total function into the registry, nothing is returned to `Collect`. -/
theorem scrape_failure_only_dbUp_zero [Zero V] [One V]
    (d : Database) (o : ScrapeResult V) (r : Registry V)
    (h : o.isFailure = true) :
    (scrapeWrite d o r).cpuPercent = r.cpuPercent ∧
    Registry.dataIO (scrapeWrite d o r) = r.dataIO ∧
    Registry.logIO (scrapeWrite d o r) = r.logIO ∧
    (scrapeWrite d o r).memoryPercent = r.memoryPercent ∧
    (scrapeWrite d o r).workPercent = r.workPercent ∧
    (scrapeWrite d o r).sessionPercent = r.sessionPercent ∧
    (scrapeWrite d o r).up = r.up ∧
    (scrapeWrite d o r).dbUp d.labels = some 0 ∧
    ∀ l, l ≠ d.labels → (scrapeWrite d o r).dbUp l = r.dbUp l := by
  cases o with
  | connectFailure e =>
      exact ⟨rfl, rfl, rfl, rfl, rfl, rfl, rfl, gvSet_same,
        fun l hl => gvSet_other hl⟩
  | queryFailure e =>
      exact ⟨rfl, rfl, rfl, rfl, rfl, rfl, rfl, gvSet_same,
        fun l hl => gvSet_other hl⟩
  | success cpu data logio memory session worker =>
      simp [ScrapeResult.isFailure] at h

/-- Witness for C2: a concrete connect failure of `dSales` against the
fresh registry writes `db_up{server="a",database="Sales"} = 0` and leaves
the `cpu_percent` family untouched. -/
theorem scrape_failure_only_dbUp_zero_witness :
    (scrapeWrite dSales (ScrapeResult.connectFailure "dial tcp: refused")
        (Registry.initial Int)).dbUp dSales.labels = some 0 ∧
    (scrapeWrite dSales (ScrapeResult.connectFailure "dial tcp: refused")
        (Registry.initial Int)).cpuPercent
      = (Registry.initial Int).cpuPercent :=
  ⟨(scrape_failure_only_dbUp_zero dSales
      (ScrapeResult.connectFailure "dial tcp: refused")
      (Registry.initial Int) rfl).2.2.2.2.2.2.2.1,
   (scrape_failure_only_dbUp_zero dSales
      (ScrapeResult.connectFailure "dial tcp: refused")
      (Registry.initial Int) rfl).1⟩

/-- **C3.** On a successful scrape, all six statistic gauges at the
target's labels receive exactly the scanned values, in the source's
column-to-gauge correspondence (`cpu → cpu_percent`, `data → data_io`,
`logio → log_io`, `memory → memory_percent`, `worker → worker_percent`,
`session → session_percent`), and `db_up` is set to `1`. -/
theorem scrape_success_sets_all_six_and_dbUp_one [Zero V] [One V]
    (d : Database) (cpu data logio memory session worker : V)
    (r : Registry V) :
    (scrapeWrite d (.success cpu data logio memory session worker) r).cpuPercent d.labels = some cpu ∧
    Registry.dataIO (scrapeWrite d (.success cpu data logio memory session worker) r) d.labels = some data ∧
    Registry.logIO (scrapeWrite d (.success cpu data logio memory session worker) r) d.labels = some logio ∧
    (scrapeWrite d (.success cpu data logio memory session worker) r).memoryPercent d.labels = some memory ∧
    (scrapeWrite d (.success cpu data logio memory session worker) r).workPercent d.labels = some worker ∧
    (scrapeWrite d (.success cpu data logio memory session worker) r).sessionPercent d.labels = some session ∧
    (scrapeWrite d (.success cpu data logio memory session worker) r).dbUp d.labels = some 1 :=
  ⟨gvSet_same, gvSet_same, gvSet_same, gvSet_same, gvSet_same, gvSet_same,
   gvSet_same⟩

/-- The snapshot a render reads from the `Collect` critical section shows,
at every label pair, exactly the view of the registry the section found. -/
theorem emittedView_collectSection [One V] (r : Registry V) (l : Labels) :
    emittedView (collectSection r).1 l = r.view l := rfl

/-- **C5.** After a `collect` cycle in which every launched scrape
completed before the emission section ran, and where the configured targets
carry pairwise distinct `(server, database)` labels, the emitted snapshot
carries one `db_up` family, and for every target that family holds exactly
one series at the target's labels (a `LabelMap` holds at most one series
per label pair by construction), whose value is `1` if that target's
scrape succeeded and `0` otherwise. -/
theorem dbUp_exactly_one_series_per_target [Zero V] [One V]
    (jobs : List (Database × ScrapeResult V)) (r : Registry V)
    (d : Database) (o : ScrapeResult V)
    (hnd : (jobs.map fun j => j.1.labels).Nodup) (hmem : (d, o) ∈ jobs) :
    ∃ m : LabelMap V, (collect jobs r).1.lookup Family.dbUp = some m ∧
      m d.labels = some (if o.isSuccess then 1 else 0) := by
  refine ⟨(runScrapes jobs r).dbUp, rfl, ?_⟩
  · have h := runScrapes_view_mem jobs r d o hnd hmem
    have h2 : (runScrapes jobs r).dbUp d.labels
        = ((runScrapes jobs r).view d.labels).dbUp := rfl
    rw [h2, h]
    cases o <;> simp [writtenView, ScrapeResult.isSuccess]

/-- Witness for C5: two targets with distinct labels, `dSales` succeeding
and `dInventory` failing to connect; the emitted `db_up` family holds `1`
for Sales and `0` for Inventory. -/
theorem dbUp_exactly_one_series_per_target_witness :
    (∃ m : LabelMap Int,
      (collect [(dSales, ScrapeResult.success 12 3 1 40 2 5),
                (dInventory, ScrapeResult.connectFailure "dial tcp: refused")]
          (Registry.initial Int)).1.lookup Family.dbUp = some m ∧
      m dSales.labels = some (if (ScrapeResult.success (V := Int)
          12 3 1 40 2 5).isSuccess then 1 else 0)) ∧
    (∃ m : LabelMap Int,
      (collect [(dSales, ScrapeResult.success 12 3 1 40 2 5),
                (dInventory, ScrapeResult.connectFailure "dial tcp: refused")]
          (Registry.initial Int)).1.lookup Family.dbUp = some m ∧
      m dInventory.labels = some (if (ScrapeResult.connectFailure (V := Int)
          "dial tcp: refused").isSuccess then 1 else 0)) :=
  ⟨dbUp_exactly_one_series_per_target _ _ dSales _ (by decide) (by decide),
   dbUp_exactly_one_series_per_target _ _ dInventory _ (by decide) (by decide)⟩

/-- **C6.** Atomicity of per-target updates against renders: run any set
`pre` of scrape critical sections (those whose mutex acquisition preceded
the render's) over the pre-cycle registry, with pairwise distinct target
labels; the snapshot the render's critical section emits shows, for any
target, either the complete post-write view of that target's own outcome
(all six statistic gauges together with `db_up`, as `writtenView` rewrites
them in one step) when its section ran before the render, or the complete
pre-cycle view when it did not — never a mixture. -/
theorem render_never_observes_partial_update [Zero V] [One V]
    (r : Registry V) (pre : List (Database × ScrapeResult V))
    (d : Database) (o : ScrapeResult V)
    (hnd : (pre.map fun j => j.1.labels).Nodup) :
    ((d, o) ∈ pre →
      emittedView (collectSection (runScrapes pre r)).1 d.labels
        = writtenView o (r.view d.labels)) ∧
    (d.labels ∉ pre.map (fun j => j.1.labels) →
      emittedView (collectSection (runScrapes pre r)).1 d.labels
        = r.view d.labels) :=
  ⟨fun hmem => by
      rw [emittedView_collectSection, runScrapes_view_mem pre r d o hnd hmem],
   fun hnot => by
      rw [emittedView_collectSection, runScrapes_view_not_mem pre r hnot]⟩

/-- Witness for C6: with `dSales`'s successful write completed before the
render and `dInventory` still in flight, the snapshot shows Sales entirely
post-write and Inventory entirely pre-cycle. -/
theorem render_never_observes_partial_update_witness :
    (emittedView (collectSection (runScrapes
        [(dSales, ScrapeResult.success (V := Int) 12 3 1 40 2 5)]
        (Registry.initial Int))).1 dSales.labels
      = writtenView (ScrapeResult.success 12 3 1 40 2 5)
          ((Registry.initial Int).view dSales.labels)) ∧
    (emittedView (collectSection (runScrapes
        [(dSales, ScrapeResult.success (V := Int) 12 3 1 40 2 5)]
        (Registry.initial Int))).1 dInventory.labels
      = (Registry.initial Int).view dInventory.labels) :=
  ⟨(render_never_observes_partial_update (Registry.initial Int)
      [(dSales, ScrapeResult.success 12 3 1 40 2 5)] dSales
      (ScrapeResult.success 12 3 1 40 2 5) (by decide)).1 (by decide),
   (render_never_observes_partial_update (Registry.initial Int)
      [(dSales, ScrapeResult.success 12 3 1 40 2 5)] dInventory
      (ScrapeResult.connectFailure "pending") (by decide)).2 (by decide)⟩

/-- **C7.** `NewConfig` returns an error exactly when the file cannot be
read or its contents cannot be unmarshalled into the `Config` shape; on
success the returned config is the parsed one.  `main` exits fatally
(before any handler or listener is installed) exactly when `NewConfig`
errs, and otherwise serves with the database list parsed from the file. -/
theorem newConfig_error_iff_and_main_fatal
    (readFile : String → Except String String)
    (unmarshal : String → Except String Config) (path : String) :
    ((∃ e, NewConfig readFile unmarshal path = .error e) ↔
      (∃ e, readFile path = .error e) ∨
      (∃ fh e, readFile path = .ok fh ∧ unmarshal fh = .error e)) ∧
    (∀ c, NewConfig readFile unmarshal path = .ok c →
      ∃ fh, readFile path = .ok fh ∧ unmarshal fh = .ok c) ∧
    (∀ e, NewConfig readFile unmarshal path = .error e →
      mainFlow readFile unmarshal path
        = .fatalExit ("Cannot open config file " ++ path ++ ": " ++ e)) ∧
    (∀ c, NewConfig readFile unmarshal path = .ok c →
      mainFlow readFile unmarshal path = .serving c.Databases) := by
  cases hr : readFile path with
  | error e => simp [NewConfig, mainFlow, hr]
  | ok fh =>
      cases hu : unmarshal fh with
      | error e => simp [NewConfig, mainFlow, hr, hu]
      | ok c => simp [NewConfig, mainFlow, hr, hu]

/-- **C8.** In every scrape cycle, for every outcome, the connection events
balance: a close for every successful open (the `defer conn.Close()` of
line 97 fires on the query-failure return and on the success fall-through
alike), at most one connection per cycle, and the cycle's very first event
is its own open attempt — no connection is carried in from a previous
cycle (`scrapeConnTrace`, like `scrapeDatabase`, takes no connection as
input). -/
theorem connection_opened_and_closed_per_cycle (o : ScrapeResult V) :
    (scrapeConnTrace o).count ConnEvent.closed
      = (scrapeConnTrace o).count ConnEvent.opened ∧
    (scrapeConnTrace o).count ConnEvent.opened ≤ 1 ∧
    ((scrapeConnTrace o).head? = some ConnEvent.openFailed ∨
     (scrapeConnTrace o).head? = some ConnEvent.opened) := by
  cases o with
  | connectFailure e => exact ⟨rfl, Nat.zero_le 1, Or.inl rfl⟩
  | queryFailure e => exact ⟨rfl, Nat.le_refl 1, Or.inr rfl⟩
  | success cpu data logio memory session worker =>
      exact ⟨rfl, Nat.le_refl 1, Or.inr rfl⟩

/-- **C10.** With an empty target list, `Collect` launches no scrape (the
cycle is just the emission critical section), still sets the liveness
gauge `up` to `1`, and — starting from the fresh registry of
`NewExporter` — every emitted labelled family carries no series at any
label pair. -/
theorem collect_empty_targets (V : Type) [Zero V] [One V] :
    collect ([] : List (Database × ScrapeResult V)) (Registry.initial V)
      = collectSection (Registry.initial V) ∧
    (collect ([] : List (Database × ScrapeResult V))
        (Registry.initial V)).2.up = some 1 ∧
    ∀ fm ∈ (collect ([] : List (Database × ScrapeResult V))
        (Registry.initial V)).1, ∀ l : Labels, fm.2 l = none := by
  refine ⟨rfl, rfl, ?_⟩
  intro fm hfm l
  fin_cases hfm <;> rfl
